import Mathlib

/-!
Verification development for the weavyai workflow-execution repository.

Shallow embedding of the Trigger.dev task code (crop-image, extract-video-frame,
llm-gemini) and of the workflow server actions.  JavaScript numbers involved in
the geometry and timestamp arithmetic are modelled as rationals (`ℚ`), pixel
values as integers (`ℤ`); `Math.round` corresponds to Mathlib's `round`
(round-half-up, `⌊x + 1/2⌋`, matching JS semantics).  Thrown exceptions are
modelled with `Except String`; external effects (fetch, ffmpeg, Transloadit)
are abstracted as environment records whose fields give each effect's outcome.
-/

deriving instance DecidableEq for Except

namespace Weavy

/-! ## JavaScript string primitives, modelled over the character data -/

/-- JS `String.prototype.startsWith`. -/
def strStartsWith (s pre : String) : Bool :=
  pre.data.isPrefixOf s.data

/-- JS `String.prototype.includes`. -/
def strContains (s pat : String) : Bool :=
  s.data.tails.any (fun t => pat.data.isPrefixOf t)

/-- JS `String.prototype.toLowerCase` (ASCII case mapping). -/
def jsToLower (s : String) : String :=
  ⟨s.data.map Char.toLower⟩

/-! ## Crop geometry (cropImageTask, part_003 lines 281–291) -/

/-- Pixel crop rectangle produced by `cropImageTask` before it is handed to
FFmpeg's `crop=w:h:x:y` filter. -/
structure CropRect where
  x : ℤ
  y : ℤ
  w : ℤ
  h : ℤ
  deriving DecidableEq, Repr

/-- The crop-rectangle computation of `cropImageTask.run`:
`x = Math.round(width*cropX/100)` (and likewise `y`, `w`, `h`), then the
clamps `x1 = max(0, min(x, width-1))`, `y1 = max(0, min(y, height-1))`,
`w1 = max(1, min(w, width-x1))`, `h1 = max(1, min(h, height-y1))`. -/
def cropPixelRect (width height : ℤ) (cropX cropY cropWidth cropHeight : ℚ) :
    CropRect :=
  let x : ℤ := round ((width * cropX) / 100)
  let y : ℤ := round ((height * cropY) / 100)
  let w : ℤ := round ((width * cropWidth) / 100)
  let h : ℤ := round ((height * cropHeight) / 100)
  let x1 := max 0 (min x (width - 1))
  let y1 := max 0 (min y (height - 1))
  let w1 := max 1 (min w (width - x1))
  let h1 := max 1 (min h (height - y1))
  ⟨x1, y1, w1, h1⟩

/-! ## Image MIME-type detection (part_002 lines 185–191 and part_005 lines 13–19) -/

/-- `detectImageMimeType` as defined in the llm task file (part_002). -/
def detectImageMimeType (imageBase64 : String) : String :=
  if strStartsWith imageBase64 "/9j/" then "image/jpeg"
  else if strStartsWith imageBase64 "iVBORw" then "image/png"
  else if strStartsWith imageBase64 "R0lGOD" then "image/gif"
  else if strStartsWith imageBase64 "UklGR" then "image/webp"
  else "image/jpeg"

/-- `detectImageMimeType` as defined in the server-action file (part_005). -/
def detectImageMimeTypeAction (imageBase64 : String) : String :=
  if strStartsWith imageBase64 "/9j/" then "image/jpeg"
  else if strStartsWith imageBase64 "iVBORw" then "image/png"
  else if strStartsWith imageBase64 "R0lGOD" then "image/gif"
  else if strStartsWith imageBase64 "UklGR" then "image/webp"
  else "image/jpeg"

/-! ## Prompt assembly (llmTask, part_002 lines 227–249) -/

/-- One element of the `parts` array sent to `generateContent`: either a text
segment or an inline base64 media attachment with its MIME type. -/
inductive Part where
  | text (s : String)
  | inlineData (mimeType : String) (data : String)
  deriving DecidableEq, Repr

/-- JavaScript truthiness of an optional string (`undefined` and `""` are
falsy). -/
def truthyStr : Option String → Bool
  | none => false
  | some s => s ≠ ""

/-- The `parts` array built by `llmTask.run`: push the system-instructions
segment when `systemPrompt` is truthy, then push the user message, then, when
`images` is non-empty, push one `inlineData` segment per image in order. -/
def buildParts (systemPrompt : Option String) (userMessage : String)
    (images : List String) : List Part :=
  let parts : List Part := []
  let parts :=
    if truthyStr systemPrompt then
      parts ++ [Part.text ("System Instructions: " ++ systemPrompt.getD "" ++ "\n\n")]
    else parts
  let parts := parts ++ [Part.text userMessage]
  let parts :=
    if images.length > 0 then
      parts ++ images.map (fun imageBase64 =>
        Part.inlineData (detectImageMimeType imageBase64) imageBase64)
    else parts
  parts

/-! ## Failure-message classification and credential failover
(llmTask, part_002 lines 259–291) -/

/-- The quota/rate classifier of `llmTask.run`:
`msg.toLowerCase()` contains `quota`, `rate`, `429` or `resource_exhausted`. -/
def isQuotaOrRate (msg : String) : Bool :=
  let m := jsToLower msg
  strContains m "quota" || strContains m "rate" || strContains m "429" ||
    strContains m "resource_exhausted"

/-- The invalid-credential classifier of `llmTask.run`:
the lower-cased message contains `api key` or `authentication`. -/
def isInvalidKeyMsg (msg : String) : Bool :=
  let m := jsToLower msg
  strContains m "api key" || strContains m "authentication"

/-- The error message thrown by `llmTask.run` on a quota-classified failure. -/
def quotaExceededMsg (apiMsg : String) : String :=
  "API quota exceeded. Please try again later or check your API key limits. (API: "
    ++ apiMsg ++ ")"

/-- The error message thrown by `llmTask.run` on an invalid-credential failure. -/
def invalidKeyErrMsg (apiMsg : String) : String :=
  "Invalid API key. Please check your GOOGLE_GEMINI_API_KEY. (API: " ++ apiMsg ++ ")"

/-- Environment of one `llmTask.run` execution: the configured credentials
(`none` models an unset or empty environment variable, which is falsy in JS)
and the outcome of a Gemini call with a given credential (`Except.error msg`
models a thrown error whose message is `msg`). -/
structure LlmEnv where
  apiKey : Option String
  backupKey : Option String
  callGemini : String → Except String String

/-- The error/failover control flow of `llmTask.run`, instrumented with the
list of credentials actually passed to `callGemini`, in call order:
try the primary key; on a quota/rate-classified failure, when a backup key is
configured and differs from the primary, retry once with the backup and return
its output on success; otherwise surface the quota error; an
invalid-credential-classified failure is rethrown as the invalid-API-key
error; any other failure is rethrown as-is. -/
def llmRunTrace (env : LlmEnv) : Except String String × List String :=
  match env.apiKey with
  | none =>
      (.error "GOOGLE_GEMINI_API_KEY is not configured. Please add it to your environment variables.",
       [])
  | some apiKey =>
    match env.callGemini apiKey with
    | .ok text => (.ok text, [apiKey])
    | .error msg =>
      if isQuotaOrRate msg then
        match env.backupKey with
        | some backupKey =>
          if backupKey ≠ apiKey then
            match env.callGemini backupKey with
            | .ok text => (.ok text, [apiKey, backupKey])
            | .error _ => (.error (quotaExceededMsg msg), [apiKey, backupKey])
          else (.error (quotaExceededMsg msg), [apiKey])
        | none => (.error (quotaExceededMsg msg), [apiKey])
      else if isInvalidKeyMsg msg then
        (.error (invalidKeyErrMsg msg), [apiKey])
      else
        (.error msg, [apiKey])

/-! ## Transloadit assembly polling (part_003 lines 123–141, 218–237, 330–343,
475–491, 548–561) -/

/-- One poll of an assembly URL, as the task code reads it: the assembly is
completed (with the result URL when the expected result entry has an
`ssl_url`), carries an `error` field, or is still pending. -/
inductive PollResp where
  | completed (url : Option String)
  | failed (err : String)
  | pending
  deriving DecidableEq, Repr

/-- The poll loop of `uploadCroppedImageToTransloadit`,
`uploadCroppedImageToTransloaditV2` and `uploadFrameToTransloadit`:
at attempt `i` with `fuel` attempts remaining, a completed assembly returns
its URL or throws when the URL is missing, an `error` field is thrown, and
when all attempts are exhausted the loop throws the timeout error. -/
def pollUploadAssembly (resp : Nat → PollResp) : Nat → Nat → Except String String
  | 0, _ => .error "Transloadit assembly timed out"
  | fuel + 1, i =>
    match resp i with
    | .completed (some url) => .ok url
    | .completed none => .error "No import URL in assembly result"
    | .failed e => .error e
    | .pending => pollUploadAssembly resp fuel (i + 1)

/-- The poll loop of `cropViaTransloadit` and `extractFrameViaTransloadit`:
at attempt `i` with `fuel` attempts remaining, a completed assembly with a
result URL returns it; any other response on the last attempt
(`i === limit - 1`, i.e. `fuel = 1`) throws the timeout error, and otherwise
polling continues. -/
def pollThumbsAssembly (resp : Nat → PollResp) : Nat → Nat → Except String String
  | 0, _ => .error "Transloadit assembly timed out"
  | fuel + 1, i =>
    match resp i with
    | .completed (some url) => .ok url
    | _ =>
      if fuel = 0 then .error "Transloadit assembly timed out"
      else pollThumbsAssembly resp fuel (i + 1)

/-! ## Crop task control flow (cropImageTask, part_003 lines 243–375) -/

/-- The JS post-processing of a produced URL: both tasks throw
`Failed to get <kind> URL` when the URL variable is still falsy (the empty
string) after the fallback chain. -/
def requireUrl (errMsg : String) : Except String String → Except String String
  | .ok u => if u = "" then .error errMsg else .ok u
  | .error e => .error e

/-- Environment of one `cropImageTask.run` execution: outcome of the image
download, of `getImageDimensions`, of the local strategy (FFmpeg crop of a
given pixel rectangle followed by `uploadCroppedImageToTransloaditV2`), and of
the remote `cropViaTransloadit` strategy. -/
structure CropEnv where
  fetchOk : Bool
  dims : Except String (ℤ × ℤ)
  localCrop : CropRect → Except String String
  remoteCrop : Except String String

/-- The body of `cropImageTask.run` (inside the `try` that owns the scratch
directory): download the image, read its dimensions, compute the clamped
pixel rectangle, then try the FFmpeg-crop-and-upload strategy and, if it
throws, the Transloadit crop-from-URL strategy; finally fail unless a
non-empty URL was obtained. -/
def cropBody (cropX cropY cropWidth cropHeight : ℚ) (env : CropEnv) :
    Except String String :=
  if env.fetchOk = false then .error "Failed to fetch image"
  else
    match env.dims with
    | .error e => .error e
    | .ok (width, height) =>
      let rect := cropPixelRect width height cropX cropY cropWidth cropHeight
      let croppedUrl :=
        match env.localCrop rect with
        | .ok u => Except.ok u
        | .error _ => env.remoteCrop
      requireUrl "Failed to get cropped image URL" croppedUrl

/-! ## Extract-frame task control flow (extractFrameTask, part_003
lines 498–633) -/

/-- Environment of one `extractFrameTask.run` execution: outcome of the video
download, of `getVideoDuration` (ffprobe), of the local FFmpeg frame
extraction, of `uploadFrameToTransloadit`, and of the remote
`extractFrameViaTransloadit` strategy as a function of the offset (in
seconds) it is invoked with. -/
structure ExtractEnv where
  fetchOk : Bool
  probe : Except String ℚ
  ffmpegOk : Bool
  upload : Except String String
  remote : ℚ → Except String String

/-- Timestamp resolution of `extractFrameTask.run` step 2: the absolute
`timestamp` when no percentage is given; otherwise probe the duration and
compute `duration * timestampPercent / 100` (a probe failure throws). -/
def resolveTimestamp (timestamp : ℚ) (timestampPercent : Option ℚ)
    (env : ExtractEnv) : Except String ℚ :=
  match timestampPercent with
  | none => .ok timestamp
  | some p => env.probe.map (fun duration => duration * p / 100)

/-- The offset used by the outer `catch` of `extractFrameTask.run` when the
local FFmpeg path threw: `(timestampPercent / 100) * 60` when a percentage is
given, the absolute `timestamp` otherwise. -/
def fallbackOffset (timestamp : ℚ) (timestampPercent : Option ℚ) : ℚ :=
  match timestampPercent with
  | some p => p / 100 * 60
  | none => timestamp

/-- The inner `try` of `extractFrameTask.run`: download the video, resolve the
timestamp (probing the duration when a percentage is given), extract the
frame with FFmpeg, then upload it; if the upload throws, fall back to
`extractFrameViaTransloadit` at the resolved timestamp. -/
def extractFrameAttempt (timestamp : ℚ) (timestampPercent : Option ℚ)
    (env : ExtractEnv) : Except String String :=
  if env.fetchOk = false then .error "Failed to fetch video"
  else
    match resolveTimestamp timestamp timestampPercent env with
    | .error e => .error e
    | .ok timestampSeconds =>
      if env.ffmpegOk = false then .error "ffmpeg extract failed"
      else
        match env.upload with
        | .ok u => .ok u
        | .error _ => env.remote timestampSeconds

/-- The body of `extractFrameTask.run` (inside the `try` that owns the
scratch directory): run the inner attempt and, if it throws anywhere
(download, probe, FFmpeg, or both upload and the resolved-offset remote
call), call `extractFrameViaTransloadit` at the fallback offset; finally fail
unless a non-empty URL was obtained. -/
def extractFrameBody (timestamp : ℚ) (timestampPercent : Option ℚ)
    (env : ExtractEnv) : Except String String :=
  let frameUrl :=
    match extractFrameAttempt timestamp timestampPercent env with
    | .ok u => Except.ok u
    | .error _ => env.remote (fallbackOffset timestamp timestampPercent)
  requireUrl "Failed to get frame image URL" frameUrl

/-! ## Scratch-directory lifecycle (part_003 lines 267–269 with 371–373, and
564–566 with 629–631) -/

/-- `fs.mkdtemp` followed by `try { body } finally { fs.rm(tmpDir, recursive,
force) }`: the directory is added to the set of existing scratch directories,
the body produces its result (a thrown error is an `Except.error` value), and
the `finally` clause removes the directory again on both outcomes. -/
def withTmpDir {α : Type} (name : String) (body : Except String α)
    (dirs : List String) : Except String α × List String :=
  let dirs1 := name :: dirs
  (body, dirs1.erase name)

/-- `cropImageTask.run` including its scratch-directory lifecycle. -/
def cropImageRun (cropX cropY cropWidth cropHeight : ℚ) (env : CropEnv)
    (tmpName : String) (dirs : List String) :
    Except String String × List String :=
  withTmpDir tmpName (cropBody cropX cropY cropWidth cropHeight env) dirs

/-- `extractFrameTask.run` including its scratch-directory lifecycle. -/
def extractFrameRun (timestamp : ℚ) (timestampPercent : Option ℚ)
    (env : ExtractEnv) (tmpName : String) (dirs : List String) :
    Except String String × List String :=
  withTmpDir tmpName (extractFrameBody timestamp timestampPercent env) dirs

/-! ## Workflow server actions (src/lib/actions/workflow.ts) -/

/-- A row of the `workflow` table (node/edge JSON arrays kept opaque as
string lists). -/
structure Workflow where
  id : String
  userId : String
  name : String
  folderId : Option String
  nodes : List String
  edges : List String
  thumbnail : Option String
  deriving DecidableEq, Repr

/-- The input of `updateWorkflow`; an outer `none` models an `undefined`
field, which the action leaves out of the update `data`.  `folderId` can be
set to `null` (`some none`). -/
structure UpdateInput where
  id : String
  name : Option String
  folderId : Option (Option String)
  nodes : Option (List String)
  edges : Option (List String)
  thumbnail : Option String
  deriving Repr

/-- Application of the update `data` object assembled by `updateWorkflow`:
each field is overwritten exactly when it was not `undefined` in the input. -/
def applyData (w : Workflow) (inp : UpdateInput) : Workflow :=
  { w with
    name := inp.name.getD w.name
    folderId := inp.folderId.getD w.folderId
    nodes := inp.nodes.getD w.nodes
    edges := inp.edges.getD w.edges
    thumbnail :=
      match inp.thumbnail with
      | some t => some t
      | none => w.thumbnail }

/-- `prisma.workflow.findFirst({ where: { id, userId } })`. -/
def findOwned (db : List Workflow) (id userId : String) : Option Workflow :=
  db.find? (fun w => w.id == id && w.userId == userId)

/-- The `updateWorkflow` server action over a database state: look up the
workflow by `(id, userId)`; when absent throw `Workflow not found` leaving the
database unchanged; otherwise apply the update to the record(s) addressed by
`id` (`prisma.workflow.update({ where: { id }, data })`). -/
def updateWorkflow (db : List Workflow) (userId : String) (inp : UpdateInput) :
    Except String Workflow × List Workflow :=
  match findOwned db inp.id userId with
  | none => (.error "Workflow not found", db)
  | some w =>
      (.ok (applyData w inp),
       db.map (fun v => if v.id == inp.id then applyData v inp else v))

/-- The `deleteWorkflow` server action over a database state: look up the
workflow by `(id, userId)`; when absent throw `Workflow not found` leaving the
database unchanged; otherwise delete the record(s) addressed by `id`
(`prisma.workflow.delete({ where: { id } })`). -/
def deleteWorkflow (db : List Workflow) (userId : String) (id : String) :
    Except String String × List Workflow :=
  match findOwned db id userId with
  | none => (.error "Workflow not found", db)
  | some _ =>
      (.ok "Workflow deleted successfully",
       db.filter (fun w => !(w.id == id)))

/-! # Theorems for the frozen claims -/

/-- C2: for source pixel dimensions `(W, H)` (at least one pixel each) and
percentage rectangle `(px, py, pw, ph)` each in `[0, 100]`, the crop task
computes `x = round(W*px/100)`, `y = round(H*py/100)`, `w = round(W*pw/100)`,
`h = round(H*ph/100)` and clamps them into `x ∈ [0, W-1]`, `y ∈ [0, H-1]`,
`w ∈ [1, W-x]`, `h ∈ [1, H-y]`; in particular `W=1000, H=500, px=10, py=20,
pw=50, ph=60` yields the pixel rectangle `x=100, y=100, w=500, h=300`. -/
theorem crop_geometry_formula_and_bounds (W H : ℤ) (px py pw ph : ℚ)
    (hW : 1 ≤ W) (hH : 1 ≤ H)
    (_hpx0 : 0 ≤ px) (_hpx1 : px ≤ 100) (_hpy0 : 0 ≤ py) (_hpy1 : py ≤ 100)
    (_hpw0 : 0 ≤ pw) (_hpw1 : pw ≤ 100) (_hph0 : 0 ≤ ph) (_hph1 : ph ≤ 100) :
    (cropPixelRect W H px py pw ph).x
        = max 0 (min (round ((W * px) / 100)) (W - 1)) ∧
    (cropPixelRect W H px py pw ph).y
        = max 0 (min (round ((H * py) / 100)) (H - 1)) ∧
    (cropPixelRect W H px py pw ph).w
        = max 1 (min (round ((W * pw) / 100))
            (W - (cropPixelRect W H px py pw ph).x)) ∧
    (cropPixelRect W H px py pw ph).h
        = max 1 (min (round ((H * ph) / 100))
            (H - (cropPixelRect W H px py pw ph).y)) ∧
    (0 ≤ (cropPixelRect W H px py pw ph).x ∧
     (cropPixelRect W H px py pw ph).x ≤ W - 1) ∧
    (0 ≤ (cropPixelRect W H px py pw ph).y ∧
     (cropPixelRect W H px py pw ph).y ≤ H - 1) ∧
    (1 ≤ (cropPixelRect W H px py pw ph).w ∧
     (cropPixelRect W H px py pw ph).w ≤ W - (cropPixelRect W H px py pw ph).x) ∧
    (1 ≤ (cropPixelRect W H px py pw ph).h ∧
     (cropPixelRect W H px py pw ph).h ≤ H - (cropPixelRect W H px py pw ph).y) ∧
    cropPixelRect 1000 500 10 20 50 60 = ⟨100, 100, 500, 300⟩ := by
  refine ⟨rfl, rfl, rfl, rfl, ?_, ?_, ?_, ?_, ?_⟩
  · simp only [cropPixelRect]; omega
  · simp only [cropPixelRect]; omega
  · simp only [cropPixelRect]; omega
  · simp only [cropPixelRect]; omega
  · simp only [cropPixelRect]; norm_num [round_eq]

/-- Witness for C2 at the spec's concrete example. -/
theorem crop_geometry_formula_and_bounds_witness :
    (1 : ℤ) ≤ 1000 ∧ (0 : ℚ) ≤ 10 ∧ (10 : ℚ) ≤ 100 ∧
    cropPixelRect 1000 500 10 20 50 60 = ⟨100, 100, 500, 300⟩ :=
  ⟨by decide, by decide, by decide,
    (crop_geometry_formula_and_bounds 1000 500 10 20 50 60
      (by decide) (by decide) (by decide) (by decide) (by decide) (by decide)
      (by decide) (by decide) (by decide) (by decide)).2.2.2.2.2.2.2.2⟩

/-- C9: `detectImageMimeType` is total and closed over the four image MIME
types, returns `image/jpeg` whenever none of the four magic prefixes
matches, and its two copies (task-side and server-action-side) are
extensionally equal. -/
theorem detectImageMimeType_closed_and_copies_agree (s : String) :
    (detectImageMimeType s = "image/jpeg" ∨ detectImageMimeType s = "image/png" ∨
     detectImageMimeType s = "image/gif" ∨ detectImageMimeType s = "image/webp") ∧
    (strStartsWith s "/9j/" = false → strStartsWith s "iVBORw" = false →
     strStartsWith s "R0lGOD" = false → strStartsWith s "UklGR" = false →
     detectImageMimeType s = "image/jpeg") ∧
    detectImageMimeType s = detectImageMimeTypeAction s := by
  refine ⟨?_, ?_, rfl⟩
  · unfold detectImageMimeType
    split_ifs <;> simp
  · intro h1 h2 h3 h4
    unfold detectImageMimeType
    simp [h1, h2, h3, h4]

/-- Witness for C9 on an input matching none of the magic prefixes. -/
theorem detectImageMimeType_closed_and_copies_agree_witness :
    detectImageMimeType "hello" = "image/jpeg" :=
  (detectImageMimeType_closed_and_copies_agree "hello").2.1
    (by decide) (by decide) (by decide) (by decide)

/-- C8: the prompt assembled by the model-inference task is exactly the
ordered list: the system-instructions segment (present iff a system prompt is
configured, i.e. truthy), then the user-message segment, then one inline-data
segment per attached image in the attachments' order. -/
theorem prompt_parts_ordered (sp : Option String) (um : String)
    (imgs : List String) :
    buildParts sp um imgs =
      (if truthyStr sp then
          [Part.text ("System Instructions: " ++ sp.getD "" ++ "\n\n")]
        else []) ++ [Part.text um] ++
        imgs.map (fun i => Part.inlineData (detectImageMimeType i) i) := by
  unfold buildParts
  rcases imgs with _ | ⟨a, l⟩ <;> split_ifs <;> simp_all

/-- C3: on a quota/rate-classified failure of the primary credential, with a
distinct secondary credential configured, the executor immediately performs
exactly one extra attempt with the secondary (call trace `[primary, backup]`,
nothing in between): if it succeeds the task succeeds with its output, and if
it fails the task surfaces the quota failure — all within a single task
attempt, before the platform's generic retry policy could act. -/
theorem quota_failover_retries_once_with_backup (env : LlmEnv)
    (k bk t msg msg2 : String)
    (hk : env.apiKey = some k) (hbk : env.backupKey = some bk) (hne : bk ≠ k)
    (hprim : env.callGemini k = .error msg) (hq : isQuotaOrRate msg = true) :
    (env.callGemini bk = .ok t → llmRunTrace env = (.ok t, [k, bk])) ∧
    (env.callGemini bk = .error msg2 →
      llmRunTrace env = (.error (quotaExceededMsg msg), [k, bk])) := by
  obtain ⟨ak, bkey, cg⟩ := env
  simp only at hk hbk hprim ⊢
  subst hk; subst hbk
  unfold llmRunTrace
  simp only [hprim, hq, if_true, ne_eq, hne, not_false_eq_true, if_pos]
  constructor <;> intro h <;> simp only [h]

/-- Concrete environment for the C3 witness: the primary key hits a rate
limit, the backup key answers. -/
def llmEnvQuotaBackup : LlmEnv where
  apiKey := some "key-one"
  backupKey := some "key-two"
  callGemini := fun key =>
    if key = "key-one" then .error "429 rate limit: quota exceeded" else .ok "answer"

/-- Witness for C3: the node succeeds via the backup credential after one
quota failure on the primary. -/
theorem quota_failover_retries_once_with_backup_witness :
    llmRunTrace llmEnvQuotaBackup = (.ok "answer", ["key-one", "key-two"]) :=
  (quota_failover_retries_once_with_backup llmEnvQuotaBackup
      "key-one" "key-two" "answer" "429 rate limit: quota exceeded" ""
      rfl rfl (by decide) (by decide) (by decide)).1 (by decide)

/-- C4: a failure whose message the executor classifies as invalid/missing
credential (and not as quota/rate) is permanent: the invalid-API-key error is
surfaced immediately, the call trace is `[primary]` only — no credential
failover and no further call. -/
theorem invalid_credential_is_permanent (env : LlmEnv) (k msg : String)
    (hk : env.apiKey = some k)
    (hprim : env.callGemini k = .error msg)
    (hq : isQuotaOrRate msg = false) (hik : isInvalidKeyMsg msg = true) :
    llmRunTrace env = (.error (invalidKeyErrMsg msg), [k]) := by
  obtain ⟨ak, bkey, cg⟩ := env
  simp only at hk hprim ⊢
  subst hk
  unfold llmRunTrace
  simp only [hprim, hq, hik, Bool.false_eq_true, if_false, if_true]

/-- Concrete environment for the C4 witness: every call reports an invalid
API key. -/
def llmEnvInvalidKey : LlmEnv where
  apiKey := some "key-one"
  backupKey := some "key-two"
  callGemini := fun _ => .error "API key not valid. Please check credentials."

/-- Witness for C4: the invalid-credential failure is surfaced immediately
with a single call to the primary credential. -/
theorem invalid_credential_is_permanent_witness :
    llmRunTrace llmEnvInvalidKey =
      (.error (invalidKeyErrMsg "API key not valid. Please check credentials."),
       ["key-one"]) :=
  invalid_credential_is_permanent llmEnvInvalidKey "key-one"
    "API key not valid. Please check credentials."
    rfl rfl (by decide) (by decide)

/-! ### Poll-loop helper lemmas (shared) -/

theorem pollUploadAssembly_stalled (resp : Nat → PollResp) :
    ∀ fuel i, (∀ j, j < fuel → resp (i + j) = .pending) →
      pollUploadAssembly resp fuel i = .error "Transloadit assembly timed out" := by
  intro fuel
  induction fuel with
  | zero => intro i _; rfl
  | succ n ih =>
    intro i h
    have h0 : resp i = .pending := by simpa using h 0 n.succ_pos
    unfold pollUploadAssembly
    rw [h0]
    exact ih (i + 1) fun j hj => by
      have hx := h (j + 1) (by omega)
      rw [show i + 1 + j = i + (j + 1) by omega]
      exact hx

theorem pollThumbsAssembly_stalled (resp : Nat → PollResp) :
    ∀ fuel i, (∀ j, j < fuel → resp (i + j) = .pending) →
      pollThumbsAssembly resp fuel i = .error "Transloadit assembly timed out" := by
  intro fuel
  induction fuel with
  | zero => intro i _; rfl
  | succ n ih =>
    intro i h
    have h0 : resp i = .pending := by simpa using h 0 n.succ_pos
    unfold pollThumbsAssembly
    rw [h0]
    rcases Nat.eq_zero_or_pos n with hn | hn
    · subst hn; rfl
    · have hne : ¬n = 0 := by omega
      simp only [hne, if_false]
      exact ih (i + 1) fun j hj => by
        have hx := h (j + 1) (by omega)
        rw [show i + 1 + j = i + (j + 1) by omega]
        exact hx

theorem pollUploadAssembly_congr (resp resp2 : Nat → PollResp) :
    ∀ fuel i, (∀ j, j < fuel → resp (i + j) = resp2 (i + j)) →
      pollUploadAssembly resp fuel i = pollUploadAssembly resp2 fuel i := by
  intro fuel
  induction fuel with
  | zero => intro i _; rfl
  | succ n ih =>
    intro i h
    have h0 : resp i = resp2 i := by simpa using h 0 n.succ_pos
    unfold pollUploadAssembly
    rw [h0]
    have hrec := ih (i + 1) fun j hj => by
      have hx := h (j + 1) (by omega)
      rw [show i + 1 + j = i + (j + 1) by omega]
      exact hx
    rcases hr : resp2 i with u | e | _
    · rcases u with _ | u <;> rfl
    · rfl
    · exact hrec

theorem pollThumbsAssembly_congr (resp resp2 : Nat → PollResp) :
    ∀ fuel i, (∀ j, j < fuel → resp (i + j) = resp2 (i + j)) →
      pollThumbsAssembly resp fuel i = pollThumbsAssembly resp2 fuel i := by
  intro fuel
  induction fuel with
  | zero => intro i _; rfl
  | succ n ih =>
    intro i h
    have h0 : resp i = resp2 i := by simpa using h 0 n.succ_pos
    unfold pollThumbsAssembly
    rw [h0]
    have hrec := ih (i + 1) fun j hj => by
      have hx := h (j + 1) (by omega)
      rw [show i + 1 + j = i + (j + 1) by omega]
      exact hx
    rcases hr : resp2 i with u | e | _
    · rcases u with _ | u
      · rw [hrec]
      · rfl
    · rw [hrec]
    · rw [hrec]

/-- C6: every Transloadit await is bounded by a poll-attempt ceiling — 60
attempts for the crop-task upload and remote-crop loops, 90 for the
frame-task upload and remote-thumbs loops.  A backend that never reports a
terminal state within the ceiling yields the timeout error rather than
further polling, and the loop's outcome depends on at most the first
`ceiling` backend responses. -/
theorem transloadit_poll_attempt_ceiling (resp resp2 : Nat → PollResp) :
    ((∀ i, i < 60 → resp i = .pending) →
      pollUploadAssembly resp 60 0 = .error "Transloadit assembly timed out") ∧
    ((∀ i, i < 90 → resp i = .pending) →
      pollUploadAssembly resp 90 0 = .error "Transloadit assembly timed out") ∧
    ((∀ i, i < 60 → resp i = .pending) →
      pollThumbsAssembly resp 60 0 = .error "Transloadit assembly timed out") ∧
    ((∀ i, i < 90 → resp i = .pending) →
      pollThumbsAssembly resp 90 0 = .error "Transloadit assembly timed out") ∧
    ((∀ i, i < 60 → resp i = resp2 i) →
      pollUploadAssembly resp 60 0 = pollUploadAssembly resp2 60 0) ∧
    ((∀ i, i < 90 → resp i = resp2 i) →
      pollThumbsAssembly resp 90 0 = pollThumbsAssembly resp2 90 0) := by
  refine ⟨fun h => pollUploadAssembly_stalled resp 60 0 ?_,
          fun h => pollUploadAssembly_stalled resp 90 0 ?_,
          fun h => pollThumbsAssembly_stalled resp 60 0 ?_,
          fun h => pollThumbsAssembly_stalled resp 90 0 ?_,
          fun h => pollUploadAssembly_congr resp resp2 60 0 ?_,
          fun h => pollThumbsAssembly_congr resp resp2 90 0 ?_⟩ <;>
    exact fun j hj => by simpa using h j (by omega)

/-- Witness for C6 with an always-pending backend. -/
theorem transloadit_poll_attempt_ceiling_witness :
    pollUploadAssembly (fun _ => .pending) 60 0
        = .error "Transloadit assembly timed out" ∧
    pollThumbsAssembly (fun _ => .pending) 90 0
        = .error "Transloadit assembly timed out" :=
  ⟨(transloadit_poll_attempt_ceiling (fun _ => .pending) (fun _ => .pending)).1
      (fun _ _ => rfl),
   (transloadit_poll_attempt_ceiling (fun _ => .pending) (fun _ => .pending)).2.2.2.1
      (fun _ _ => rfl)⟩

/-- Concrete environment refuting C1 as stated: the source video's duration
is 120 s and the percentage is 50, but the local FFmpeg strategy fails, so the
remote strategy is invoked.  The remote strategy distinguishes the offset it
receives: 60 (the claimed `duration * percent / 100`) versus anything else. -/
def extractEnvDur120FfmpegDown : ExtractEnv where
  fetchOk := true
  probe := .ok 120
  ffmpegOk := false
  upload := .error "unused"
  remote := fun off => if off = 60 then .ok "offset-sixty" else .ok "offset-other"

/-- Counterexample to C1: with duration 120 s and percent 50, on the path
where the local FFmpeg strategy fails, the remote strategy is invoked with
offset `percent/100 * 60 = 30`, not with `duration * percent / 100 = 60`: the
run returns the remote result for an offset different from 60, and the
duration is never used on this path. -/
theorem extract_percent_timestamp_counterexample :
    extractEnvDur120FfmpegDown.probe = .ok 120 ∧
    extractEnvDur120FfmpegDown.remote 60 = .ok "offset-sixty" ∧
    extractEnvDur120FfmpegDown.remote 30 = .ok "offset-other" ∧
    extractFrameBody 0 (some 50) extractEnvDur120FfmpegDown = .ok "offset-other" ∧
    (Except.ok "offset-other" : Except String String) ≠ .ok "offset-sixty" := by
  refine ⟨rfl, by norm_num [extractEnvDur120FfmpegDown],
    by norm_num [extractEnvDur120FfmpegDown], ?_, by decide⟩
  simp only [extractFrameBody, extractFrameAttempt, resolveTimestamp, fallbackOffset,
    requireUrl, extractEnvDur120FfmpegDown]
  norm_num [Except.map]
  decide

/-- C1 (amended): when the timestamp is given as a percentage, the local
FFmpeg path probes the duration and uses `duration * percent / 100` — in
particular 60 s for duration 120 s and percent 50 — and the remote fallback
entered after an upload failure receives that resolved timestamp; but on the
path where the local FFmpeg strategy fails before resolving, the remote
strategy is invoked with `percent/100 * 60` (a fixed 60-second duration
assumption) instead of the probed duration. -/
theorem extract_percent_timestamp_resolution (ts p d : ℚ) (env : ExtractEnv)
    (e u v : String)
    (hfetch : env.fetchOk = true) (hprobe : env.probe = .ok d) :
    (env.ffmpegOk = true → env.upload = .error e →
      env.remote (d * p / 100) = .ok u → u ≠ "" →
      extractFrameBody ts (some p) env = .ok u) ∧
    (d = 120 → env.ffmpegOk = true → env.upload = .error e →
      env.remote 60 = .ok u → u ≠ "" →
      extractFrameBody ts (some 50) env = .ok u) ∧
    (env.ffmpegOk = false → env.remote (p / 100 * 60) = .ok v → v ≠ "" →
      extractFrameBody ts (some p) env = .ok v) := by
  refine ⟨?_, ?_, ?_⟩
  · intro hff hup hrem hne
    simp only [extractFrameBody, extractFrameAttempt, resolveTimestamp, hfetch,
      Bool.true_eq_false, if_false, hprobe, Except.map, hff, hup, hrem, requireUrl,
      if_neg hne]
  · intro hd hff hup hrem hne
    subst hd
    have h60 : (120 : ℚ) * 50 / 100 = 60 := by norm_num
    simp only [extractFrameBody, extractFrameAttempt, resolveTimestamp, hfetch,
      Bool.true_eq_false, if_false, hprobe, Except.map, hff, hup, h60, hrem,
      requireUrl, if_neg hne]
  · intro hff hrem hne
    simp [extractFrameBody, extractFrameAttempt, resolveTimestamp, hfetch,
      hprobe, Except.map, hff, fallbackOffset, hrem, requireUrl, hne]

/-- Concrete environment for the C1 witness: duration 120 s, FFmpeg extracts
the frame but the upload fails, so the remote strategy receives the resolved
timestamp. -/
def extractEnvUploadDown : ExtractEnv where
  fetchOk := true
  probe := .ok 120
  ffmpegOk := true
  upload := .error "upload failed"
  remote := fun _ => .ok "frame-url"

/-- Witness for the amended C1 at duration 120 s, percent 50. -/
theorem extract_percent_timestamp_resolution_witness :
    extractFrameBody 7 (some 50) extractEnvUploadDown = .ok "frame-url" :=
  (extract_percent_timestamp_resolution 7 50 120 extractEnvUploadDown
      "upload failed" "frame-url" "frame-url" rfl rfl).2.1
    rfl rfl rfl rfl (by decide)

/-- C5: both geometry-transform tasks try their two strategies in order —
the locally-capable transform-then-store strategy first, the remote
all-in-one strategy second — return the first success, proceed to the next
strategy when one raises, and fail with the last strategy's error when all
fail.  (For the frame task, a failure of any part of the local attempt —
including the remote call at the resolved timestamp made after an upload
failure — leads to the final remote call, whose error is the one surfaced.) -/
theorem fallback_chain_first_success_last_error :
    (∀ (px py pw ph : ℚ) (env : CropEnv) (W H : ℤ) (u : String),
      env.fetchOk = true → env.dims = .ok (W, H) →
      env.localCrop (cropPixelRect W H px py pw ph) = .ok u → u ≠ "" →
      cropBody px py pw ph env = .ok u) ∧
    (∀ (px py pw ph : ℚ) (env : CropEnv) (W H : ℤ) (e v : String),
      env.fetchOk = true → env.dims = .ok (W, H) →
      env.localCrop (cropPixelRect W H px py pw ph) = .error e →
      env.remoteCrop = .ok v → v ≠ "" →
      cropBody px py pw ph env = .ok v) ∧
    (∀ (px py pw ph : ℚ) (env : CropEnv) (W H : ℤ) (e e2 : String),
      env.fetchOk = true → env.dims = .ok (W, H) →
      env.localCrop (cropPixelRect W H px py pw ph) = .error e →
      env.remoteCrop = .error e2 →
      cropBody px py pw ph env = .error e2) ∧
    (∀ (ts : ℚ) (pct : Option ℚ) (env : ExtractEnv) (tsec : ℚ) (u : String),
      env.fetchOk = true → resolveTimestamp ts pct env = .ok tsec →
      env.ffmpegOk = true → env.upload = .ok u → u ≠ "" →
      extractFrameBody ts pct env = .ok u) ∧
    (∀ (ts : ℚ) (pct : Option ℚ) (env : ExtractEnv) (tsec : ℚ) (e v : String),
      env.fetchOk = true → resolveTimestamp ts pct env = .ok tsec →
      env.ffmpegOk = true → env.upload = .error e →
      env.remote tsec = .ok v → v ≠ "" →
      extractFrameBody ts pct env = .ok v) ∧
    (∀ (ts : ℚ) (pct : Option ℚ) (env : ExtractEnv) (e v : String),
      extractFrameAttempt ts pct env = .error e →
      env.remote (fallbackOffset ts pct) = .ok v → v ≠ "" →
      extractFrameBody ts pct env = .ok v) ∧
    (∀ (ts : ℚ) (pct : Option ℚ) (env : ExtractEnv) (e e2 : String),
      extractFrameAttempt ts pct env = .error e →
      env.remote (fallbackOffset ts pct) = .error e2 →
      extractFrameBody ts pct env = .error e2) := by
  refine ⟨?_, ?_, ?_, ?_, ?_, ?_, ?_⟩
  · intro px py pw ph env W H u hf hd hl hne
    simp only [cropBody, hf, Bool.true_eq_false, if_false, hd, hl, requireUrl,
      if_neg hne]
  · intro px py pw ph env W H e v hf hd hl hr hne
    simp only [cropBody, hf, Bool.true_eq_false, if_false, hd, hl, hr, requireUrl,
      if_neg hne]
  · intro px py pw ph env W H e e2 hf hd hl hr
    simp only [cropBody, hf, Bool.true_eq_false, if_false, hd, hl, hr, requireUrl]
  · intro ts pct env tsec u hf hres hff hup hne
    simp only [extractFrameBody, extractFrameAttempt, hf, Bool.true_eq_false,
      if_false, hres, hff, hup, requireUrl, if_neg hne]
  · intro ts pct env tsec e v hf hres hff hup hr hne
    simp only [extractFrameBody, extractFrameAttempt, hf, Bool.true_eq_false,
      if_false, hres, hff, hup, hr, requireUrl, if_neg hne]
  · intro ts pct env e v hatt hr hne
    simp only [extractFrameBody, hatt, hr, requireUrl, if_neg hne]
  · intro ts pct env e e2 hatt hr
    simp only [extractFrameBody, hatt, hr, requireUrl]

/-- Concrete crop environment: local strategy succeeds while the remote
backend is down. -/
def cropEnvLocalOk : CropEnv where
  fetchOk := true
  dims := .ok (1000, 500)
  localCrop := fun _ => .ok "local-url"
  remoteCrop := .error "remote down"

/-- Concrete crop environment: both strategies fail. -/
def cropEnvAllFail : CropEnv where
  fetchOk := true
  dims := .ok (1000, 500)
  localCrop := fun _ => .error "ffmpeg unavailable"
  remoteCrop := .error "remote down"

/-- Concrete frame environment: the local upload fails and the remote
strategy succeeds at the resolved timestamp. -/
def extractEnvRemoteOk : ExtractEnv where
  fetchOk := true
  probe := .ok 120
  ffmpegOk := true
  upload := .error "upload failed"
  remote := fun _ => .ok "remote-url"

/-- Witness for C5: first success wins, on strategy failure the chain
proceeds, and when everything fails the last strategy's error surfaces. -/
theorem fallback_chain_first_success_last_error_witness :
    cropBody 10 20 50 60 cropEnvLocalOk = .ok "local-url" ∧
    cropBody 10 20 50 60 cropEnvAllFail = .error "remote down" ∧
    extractFrameBody 9 none extractEnvRemoteOk = .ok "remote-url" :=
  ⟨fallback_chain_first_success_last_error.1 10 20 50 60 cropEnvLocalOk
      1000 500 "local-url" rfl rfl rfl (by decide),
   fallback_chain_first_success_last_error.2.2.1 10 20 50 60 cropEnvAllFail
      1000 500 "ffmpeg unavailable" "remote down" rfl rfl rfl rfl,
   fallback_chain_first_success_last_error.2.2.2.2.1 9 none extractEnvRemoteOk
      9 "upload failed" "remote-url" rfl rfl rfl rfl rfl (by decide)⟩

/-- C7: for every crop and frame-extraction execution — whatever the
environment, i.e. on the success path and on every throwing path (download,
probe, transform, upload, remote strategy, timeout) — the scratch directory
created for the execution is removed again by the `finally` clause: the set
of existing scratch directories after the run equals the set before it. -/
theorem scratch_dir_released_on_every_path (px py pw ph ts : ℚ)
    (pct : Option ℚ) (cenv : CropEnv) (eenv : ExtractEnv)
    (tmp : String) (dirs : List String) :
    (cropImageRun px py pw ph cenv tmp dirs).2 = dirs ∧
    (extractFrameRun ts pct eenv tmp dirs).2 = dirs := by
  constructor <;>
    simp [cropImageRun, extractFrameRun, withTmpDir]

/-! ### Ownership lookup helper (shared) -/

theorem findOwned_eq_none_iff (db : List Workflow) (id userId : String) :
    findOwned db id userId = none ↔
      ∀ w ∈ db, ¬(w.id = id ∧ w.userId = userId) := by
  unfold findOwned
  rw [List.find?_eq_none]
  constructor
  · intro h w hw
    have := h w hw
    simpa [Bool.and_eq_true] using this
  · intro h w hw
    have := h w hw
    simpa [Bool.and_eq_true] using this

/-- C10: `updateWorkflow` and `deleteWorkflow` throw `Workflow not found` and
leave the database unchanged whenever no workflow with the given id belongs
to the authenticated user; conversely the database changes only when the
addressed workflow exists and its `userId` equals the authenticated user's
id. -/
theorem workflow_mutations_require_ownership (db : List Workflow)
    (user wid : String) (inp : UpdateInput) :
    ((∀ w ∈ db, ¬(w.id = inp.id ∧ w.userId = user)) →
      updateWorkflow db user inp = (.error "Workflow not found", db)) ∧
    ((∀ w ∈ db, ¬(w.id = wid ∧ w.userId = user)) →
      deleteWorkflow db user wid = (.error "Workflow not found", db)) ∧
    ((updateWorkflow db user inp).2 ≠ db →
      ∃ w ∈ db, w.id = inp.id ∧ w.userId = user) ∧
    ((deleteWorkflow db user wid).2 ≠ db →
      ∃ w ∈ db, w.id = wid ∧ w.userId = user) := by
  refine ⟨?_, ?_, ?_, ?_⟩
  · intro h
    unfold updateWorkflow
    rw [(findOwned_eq_none_iff db inp.id user).mpr h]
  · intro h
    unfold deleteWorkflow
    rw [(findOwned_eq_none_iff db wid user).mpr h]
  · intro hchanged
    by_contra hno
    push_neg at hno
    have hnone : findOwned db inp.id user = none :=
      (findOwned_eq_none_iff db inp.id user).mpr fun w hw hc =>
        hno w hw hc.1 hc.2
    apply hchanged
    unfold updateWorkflow
    rw [hnone]
  · intro hchanged
    by_contra hno
    push_neg at hno
    have hnone : findOwned db wid user = none :=
      (findOwned_eq_none_iff db wid user).mpr fun w hw hc =>
        hno w hw hc.1 hc.2
    apply hchanged
    unfold deleteWorkflow
    rw [hnone]

/-- Concrete one-row database for the C10 witness. -/
def dbOne : List Workflow :=
  [{ id := "wf-1", userId := "user-1", name := "untitled", folderId := none,
     nodes := [], edges := [], thumbnail := none }]

/-- Concrete update input addressing `wf-1`. -/
def inpOne : UpdateInput :=
  { id := "wf-1", name := some "renamed", folderId := none, nodes := none,
    edges := none, thumbnail := none }

/-- Witness for C10: a different authenticated user (`user-2`) gets
`Workflow not found` from both actions and the database is untouched. -/
theorem workflow_mutations_require_ownership_witness :
    updateWorkflow dbOne "user-2" inpOne = (.error "Workflow not found", dbOne) ∧
    deleteWorkflow dbOne "user-2" "wf-1" = (.error "Workflow not found", dbOne) :=
  ⟨(workflow_mutations_require_ownership dbOne "user-2" "wf-1" inpOne).1
      (by decide),
   (workflow_mutations_require_ownership dbOne "user-2" "wf-1" inpOne).2.1
      (by decide)⟩

end Weavy
